import Mathlib

/-!
Shallow embedding of `src/main.go` from tinygo-webgl-fundamentals-lesson-4.

The program is a linear sequence of WebGL calls followed by a 50-iteration
drawing loop.  We model every GL call the program issues as an element of a
command trace, and the host environment (whether context creation succeeds,
whether each shader compiles, the values drawn from `math/rand`, canvas
dimensions, attribute/uniform locations) as an explicit `Env` record.  `main`
becomes the pure function `mainGo : Env → MainResult` that returns the alert
message (if any), the GL command trace, and the lines logged via `println`.

Machine `float32` values are modelled as rationals: every number the program
feeds through float32 (integers below 600, and values in [0,1)) is exactly
representable, so rational arithmetic agrees with the float32 arithmetic of
the source on all quantities the claims mention.
-/

/-- GL enum constants used by the program (values of the WebGL standard,
mirrored from the `webgl` package the source imports). -/
def VERTEX_SHADER : Nat := 35633

def FRAGMENT_SHADER : Nat := 35632

def ARRAY_BUFFER : Nat := 34962

def STATIC_DRAW : Nat := 35044

def TRIANGLES : Nat := 4

def FLOAT : Nat := 5126

def COLOR_BUFFER_BIT : Nat := 16384

def COMPILE_STATUS : Nat := 35713

def LINK_STATUS : Nat := 35714

/-- Vertex shader source text (`vertCode` in src/main.go). -/
def vertCode : String :=
  "attribute vec2 a_position; uniform vec2 u_resolution; void main() \x7b vec2 zeroToOne = a_position.xy / u_resolution; vec2 zeroToTwo = zeroToOne * 2.0; vec2 clipSpace = zeroToTwo - 1.0; gl_Position = vec4(clipSpace * vec2(1, -1), 0, 1); \x7d"

/-- Fragment shader source text (`fragCode` in src/main.go). -/
def fragCode : String :=
  "precision mediump float; uniform vec4 u_color; void main() \x7b gl_FragColor = u_color; \x7d"

/-- A shader or program handle: either a real GL object or the zero
`js.Value` returned by `createShader`/`createProgram` on failure. -/
inductive Handle where
  | valid (id : Nat)
  | invalid
deriving DecidableEq

/-- One WebGL call issued by the program, with its arguments. -/
inductive Cmd where
  | createShaderCall (shaderType : Nat) (id : Nat)
  | shaderSourceCall (id : Nat) (source : String)
  | compileShaderCall (id : Nat)
  | getShaderParameterCall (id : Nat) (pname : Nat)
  | getShaderInfoLogCall (id : Nat)
  | deleteShaderCall (id : Nat)
  | createProgramCall (id : Nat)
  | attachShaderCall (prog : Nat) (sh : Handle)
  | linkProgramCall (prog : Nat)
  | getProgramParameterCall (prog : Nat) (pname : Nat)
  | getProgramInfoLogCall (prog : Nat)
  | deleteProgramCall (prog : Nat)
  | getAttribLocationCall (prog : Handle) (name : String)
  | getUniformLocationCall (prog : Handle) (name : String)
  | createBufferCall (id : Nat)
  | bindBuffer (target : Nat) (buffer : Nat)
  | viewport (x y w h : Int)
  | clearColor (r g b a : ℚ)
  | clear (mask : Nat)
  | useProgram (prog : Handle)
  | enableVertexAttribArray (loc : Int)
  | vertexAttribPointer (loc : Int) (size : Nat) (typ : Nat) (normalized : Bool) (stride : Nat) (offset : Nat)
  | uniform2f (loc : Int) (x y : ℚ)
  | uniform4f (loc : Int) (r g b a : ℚ)
  | bufferData (target : Nat) (data : List ℚ) (usage : Nat)
  | drawArrays (mode : Nat) (first : Int) (count : Nat)
deriving DecidableEq

/-- Modelled from the spec: the `math/rand` package is library code outside
src/.  `intn k n` is the value returned by the k-th call of `rand.Intn n`,
which the library documents to be uniform in [0, n); `float32 k` is the value
of the k-th call of `rand.Float32`, documented to lie in [0, 1).  The random
state of a run is the whole table of values. -/
structure RandSource where
  intn : Nat → Nat → Nat
  float32 : Nat → ℚ
  intn_lt : ∀ k n, 0 < n → intn k n < n
  float32_nonneg : ∀ k, 0 ≤ float32 k
  float32_lt_one : ∀ k, float32 k < 1

/-- The host environment of one execution: canvas size, whether context
creation succeeds (and the error text when it does not), the GL driver's
compile/link verdicts and info logs per object id, the location tables, and
the random state. -/
structure Env where
  width : Nat
  height : Nat
  contextOk : Bool
  contextErr : String
  compileOk : Nat → Bool
  linkOk : Nat → Bool
  shaderInfoLog : Nat → String
  programInfoLog : Nat → String
  attribLoc : String → Int
  uniformLoc : String → Int
  rnd : RandSource

/-- Result of running `main`: the alert message posted on context failure,
the GL command trace, and the lines printed with `println`. -/
structure MainResult where
  alerted : Option String
  trace : List Cmd
  logs : List String
deriving DecidableEq

/-- `createShader` from src/main.go: create a shader object, upload source,
compile, query COMPILE_STATUS; on success return the shader, on failure print
the info log, delete the shader, and return the zero value.  Returns the
handle, the GL calls made, and the lines logged. -/
def createShader (env : Env) (shaderType : Nat) (source : String) (id : Nat) :
    Handle × List Cmd × List String :=
  let calls := [Cmd.createShaderCall shaderType id, Cmd.shaderSourceCall id source,
                Cmd.compileShaderCall id, Cmd.getShaderParameterCall id COMPILE_STATUS]
  if env.compileOk id then
    (Handle.valid id, calls, [])
  else
    (Handle.invalid,
     calls ++ [Cmd.getShaderInfoLogCall id, Cmd.deleteShaderCall id],
     [env.shaderInfoLog id])

/-- `createProgram` from src/main.go: create a program, attach both shaders,
link, query LINK_STATUS; on success return the program, on failure print the
info log, delete the program, and return the zero value. -/
def createProgram (env : Env) (vertexShaderH fragmentShaderH : Handle) (id : Nat) :
    Handle × List Cmd × List String :=
  let calls := [Cmd.createProgramCall id, Cmd.attachShaderCall id vertexShaderH,
                Cmd.attachShaderCall id fragmentShaderH, Cmd.linkProgramCall id,
                Cmd.getProgramParameterCall id LINK_STATUS]
  if env.linkOk id then
    (Handle.valid id, calls, [])
  else
    (Handle.invalid,
     calls ++ [Cmd.getProgramInfoLogCall id, Cmd.deleteProgramCall id],
     [env.programInfoLog id])

/-- The vertex list built by `setRectangle` in src/main.go (the slice
`positionsNative`): x1 := x, x2 := x + width, y1 := y, y2 := y + height, then
the six vertices of the two triangles, flattened. -/
def rectangleVertices (x y width height : ℚ) : List ℚ :=
  let x1 := x
  let x2 := x + width
  let y1 := y
  let y2 := y + height
  [x1, y1, x2, y1, x1, y2, x1, y2, x2, y1, x2, y2]

/-- `setRectangle` from src/main.go: build the six vertices and upload them
with `BufferData(ARRAY_BUFFER, positions, STATIC_DRAW)`. -/
def setRectangle (x y width height : ℚ) : List Cmd :=
  [Cmd.bufferData ARRAY_BUFFER (rectangleVertices x y width height) STATIC_DRAW]

/-- The x sampled for loop iteration i: the first of the four `rand.Intn 300`
calls of that iteration (arguments of `setRectangle` evaluate left to right). -/
def sampleX (env : Env) (i : Nat) : Nat := env.rnd.intn (4 * i) 300

/-- The y sampled for loop iteration i. -/
def sampleY (env : Env) (i : Nat) : Nat := env.rnd.intn (4 * i + 1) 300

/-- The width sampled for loop iteration i. -/
def sampleW (env : Env) (i : Nat) : Nat := env.rnd.intn (4 * i + 2) 300

/-- The height sampled for loop iteration i. -/
def sampleH (env : Env) (i : Nat) : Nat := env.rnd.intn (4 * i + 3) 300

/-- The red channel sampled for loop iteration i (first `rand.Float32`). -/
def sampleR (env : Env) (i : Nat) : ℚ := env.rnd.float32 (3 * i)

/-- The green channel sampled for loop iteration i. -/
def sampleG (env : Env) (i : Nat) : ℚ := env.rnd.float32 (3 * i + 1)

/-- The blue channel sampled for loop iteration i. -/
def sampleB (env : Env) (i : Nat) : ℚ := env.rnd.float32 (3 * i + 2)

/-- One iteration of the drawing loop in `main`: `setRectangle` with four
fresh `rand.Intn 300` samples, `Uniform4f` with three fresh `rand.Float32`
samples and alpha 1, then `DrawArrays(TRIANGLES, 0, 6)`. -/
def loopIter (env : Env) (colorLoc : Int) (i : Nat) : List Cmd :=
  setRectangle (sampleX env i) (sampleY env i) (sampleW env i) (sampleH env i) ++
  [Cmd.uniform4f colorLoc (sampleR env i) (sampleG env i) (sampleB env i) 1,
   Cmd.drawArrays TRIANGLES 0 6]

/-- The one-time GL calls of `main` between program linking and the loop, in
source order: location lookups, buffer creation and binding, viewport, clear,
UseProgram, attribute setup, and the single resolution uniform write. -/
def setupTrace (env : Env) (program : Handle) : List Cmd :=
  [Cmd.getAttribLocationCall program "a_position",
   Cmd.getUniformLocationCall program "u_resolution",
   Cmd.getUniformLocationCall program "u_color",
   Cmd.createBufferCall 3,
   Cmd.bindBuffer ARRAY_BUFFER 3,
   Cmd.viewport 0 0 env.width env.height,
   Cmd.clearColor 0 0 0 0,
   Cmd.clear COLOR_BUFFER_BIT,
   Cmd.useProgram program,
   Cmd.enableVertexAttribArray (env.attribLoc "a_position"),
   Cmd.bindBuffer ARRAY_BUFFER 3,
   Cmd.vertexAttribPointer (env.attribLoc "a_position") 2 FLOAT false 0 0,
   Cmd.uniform2f (env.uniformLoc "u_resolution") env.width env.height]

/-- `main` from src/main.go.  If `webgl.NewContext` fails, alert the user and
return with an empty GL trace.  Otherwise build both shaders (object ids 0
and 1), link the program (id 2), run the one-time setup, and execute the
50-iteration drawing loop. -/
def mainGo (env : Env) : MainResult :=
  if env.contextOk then
    let s1 := createShader env VERTEX_SHADER vertCode 0
    let s2 := createShader env FRAGMENT_SHADER fragCode 1
    let p := createProgram env s1.1 s2.1 2
    { alerted := none
      trace := s1.2.1 ++ s2.2.1 ++ p.2.1 ++ setupTrace env p.1 ++
               (List.range 50).flatMap (loopIter env (env.uniformLoc "u_color"))
      logs := s1.2.2 ++ s2.2.2 ++ p.2.2 }
  else
    { alerted := some ("Error: " ++ env.contextErr)
      trace := []
      logs := [] }

/-- The vertex shader body from `vertCode`, over exact arithmetic: divide the
pixel position by the resolution, double, subtract one, flip y, extend to the
vec4 `gl_Position` with z = 0, w = 1. -/
def vertexShaderRun (u_resolution : ℚ × ℚ) (a_position : ℚ × ℚ) : ℚ × ℚ × ℚ × ℚ :=
  let zeroToOne := (a_position.1 / u_resolution.1, a_position.2 / u_resolution.2)
  let zeroToTwo := (zeroToOne.1 * 2, zeroToOne.2 * 2)
  let clipSpace := (zeroToTwo.1 - 1, zeroToTwo.2 - 1)
  (clipSpace.1 * 1, clipSpace.2 * (-1), 0, 1)

/-- The fragment shader body from `fragCode`: output the color uniform. -/
def fragmentShaderRun (u_color : ℚ × ℚ × ℚ × ℚ) : ℚ × ℚ × ℚ × ℚ := u_color

/-- Group a flat float list into consecutive 2-component vertices, the way
`VertexAttribPointer(loc, 2, FLOAT, false, 0, 0)` makes the GPU read it. -/
def toVec2s : List ℚ → List (ℚ × ℚ)
  | a :: b :: rest => (a, b) :: toVec2s rest
  | _ => []

/-- Recognises a `DrawArrays` call in the trace. -/
def isDrawArrays : Cmd → Bool
  | Cmd.drawArrays _ _ _ => true
  | _ => false

/-- Recognises a `Uniform2f` call (only the resolution uniform uses it). -/
def isUniform2f : Cmd → Bool
  | Cmd.uniform2f _ _ _ => true
  | _ => false

/-- Recognises a `Uniform4f` call (only the color uniform uses it). -/
def isUniform4f : Cmd → Bool
  | Cmd.uniform4f _ _ _ _ _ => true
  | _ => false

/-- Recognises a `BufferData` upload. -/
def isBufferData : Cmd → Bool
  | Cmd.bufferData _ _ _ => true
  | _ => false

/-- Extract the `BufferData` uploads of a trace: target, data, usage hint. -/
def bufferUploads : List Cmd → List (Nat × List ℚ × Nat)
  | [] => []
  | Cmd.bufferData t d u :: rest => (t, d, u) :: bufferUploads rest
  | _ :: rest => bufferUploads rest

/-- Extract the `Uniform4f` color writes of a trace: location and channels. -/
def colorWrites : List Cmd → List (Int × ℚ × ℚ × ℚ × ℚ)
  | [] => []
  | Cmd.uniform4f l r g b a :: rest => (l, r, g, b, a) :: colorWrites rest
  | _ :: rest => colorWrites rest

/-- An all-zero random state: every `Intn` call returns 0, every `Float32`
call returns 0. -/
def zeroRand : RandSource where
  intn := fun _ _ => 0
  float32 := fun _ => 0
  intn_lt := fun _ _ hn => hn
  float32_nonneg := fun _ => le_refl 0
  float32_lt_one := fun _ => by norm_num

/-- A concrete healthy environment: 300×150 canvas, context creation,
compilation and linking all succeed, all-zero random state. -/
def zeroEnv : Env where
  width := 300
  height := 150
  contextOk := true
  contextErr := ""
  compileOk := fun _ => true
  linkOk := fun _ => true
  shaderInfoLog := fun _ => ""
  programInfoLog := fun _ => ""
  attribLoc := fun _ => 0
  uniformLoc := fun _ => 0
  rnd := zeroRand

/-- `zeroEnv` with every shader compilation failing. -/
def failCompileEnv : Env :=
  { zeroEnv with compileOk := fun _ => false, shaderInfoLog := fun _ => "syntax error" }

/-- `zeroEnv` with context creation failing. -/
def noContextEnv : Env :=
  { zeroEnv with contextOk := false, contextErr := "creating a webgl context has failed" }

/-- C1: for every rectangle (x, y, w, h), `setRectangle`'s vertex expansion
produces exactly the six 2D vertices (x,y), (x+w,y), (x,y+h), (x,y+h),
(x+w,y), (x+w,y+h), in that order, as a pure function of its arguments. -/
theorem setRectangle_six_vertices (x y w h : ℚ) :
    toVec2s (rectangleVertices x y w h) =
      [(x, y), (x + w, y), (x, y + h), (x, y + h), (x + w, y), (x + w, y + h)] ∧
    bufferUploads (setRectangle x y w h) =
      [(ARRAY_BUFFER, rectangleVertices x y w h, STATIC_DRAW)] := by
  constructor
  · simp [rectangleVertices, toVec2s]
  · rfl

lemma filter_draw_createShader (env : Env) (t : Nat) (src : String) (id : Nat) :
    ((createShader env t src id).2.1).filter isDrawArrays = [] := by
  simp only [createShader]
  split <;> rfl

lemma filter_draw_createProgram (env : Env) (v f : Handle) (id : Nat) :
    ((createProgram env v f id).2.1).filter isDrawArrays = [] := by
  simp only [createProgram]
  split <;> rfl

lemma filter_draw_setupTrace (env : Env) (p : Handle) :
    (setupTrace env p).filter isDrawArrays = [] := rfl

lemma filter_draw_loop (env : Env) (loc : Int) (n : Nat) :
    (((List.range n).flatMap (loopIter env loc)).filter isDrawArrays) =
      List.replicate n (Cmd.drawArrays TRIANGLES 0 6) := by
  induction n with
  | zero => rfl
  | succ n ih =>
      rw [List.range_succ, List.flatMap_append, List.filter_append, ih,
          List.replicate_succ']
      simp [loopIter, setRectangle, isDrawArrays]

lemma mainGo_trace_ok (env : Env) (h : env.contextOk = true) :
    (mainGo env).trace =
      (createShader env VERTEX_SHADER vertCode 0).2.1 ++
      (createShader env FRAGMENT_SHADER fragCode 1).2.1 ++
      (createProgram env (createShader env VERTEX_SHADER vertCode 0).1
        (createShader env FRAGMENT_SHADER fragCode 1).1 2).2.1 ++
      setupTrace env (createProgram env (createShader env VERTEX_SHADER vertCode 0).1
        (createShader env FRAGMENT_SHADER fragCode 1).1 2).1 ++
      (List.range 50).flatMap (loopIter env (env.uniformLoc "u_color")) := by
  simp [mainGo, h]

lemma filter_draw_mainGo (env : Env) (h : env.contextOk = true) :
    (mainGo env).trace.filter isDrawArrays =
      List.replicate 50 (Cmd.drawArrays TRIANGLES 0 6) := by
  rw [mainGo_trace_ok env h, List.filter_append, List.filter_append, List.filter_append,
      List.filter_append, filter_draw_createShader, filter_draw_createShader,
      filter_draw_createProgram, filter_draw_setupTrace, filter_draw_loop]
  rfl

lemma bufferUploads_append (l₁ l₂ : List Cmd) :
    bufferUploads (l₁ ++ l₂) = bufferUploads l₁ ++ bufferUploads l₂ := by
  induction l₁ with
  | nil => rfl
  | cons c rest ih => cases c <;> simp [bufferUploads, ih]

lemma colorWrites_append (l₁ l₂ : List Cmd) :
    colorWrites (l₁ ++ l₂) = colorWrites l₁ ++ colorWrites l₂ := by
  induction l₁ with
  | nil => rfl
  | cons c rest ih => cases c <;> simp [colorWrites, ih]

lemma bufferUploads_createShader (env : Env) (t : Nat) (src : String) (id : Nat) :
    bufferUploads (createShader env t src id).2.1 = [] := by
  simp only [createShader]
  split <;> rfl

lemma bufferUploads_createProgram (env : Env) (v f : Handle) (id : Nat) :
    bufferUploads (createProgram env v f id).2.1 = [] := by
  simp only [createProgram]
  split <;> rfl

lemma bufferUploads_setupTrace (env : Env) (p : Handle) :
    bufferUploads (setupTrace env p) = [] := rfl

lemma bufferUploads_loop (env : Env) (loc : Int) (n : Nat) :
    bufferUploads ((List.range n).flatMap (loopIter env loc)) =
      (List.range n).map (fun i =>
        (ARRAY_BUFFER,
         rectangleVertices (sampleX env i) (sampleY env i) (sampleW env i) (sampleH env i),
         STATIC_DRAW)) := by
  induction n with
  | zero => rfl
  | succ n ih =>
      rw [List.range_succ, List.flatMap_append, bufferUploads_append, ih, List.map_append]
      simp [loopIter, setRectangle, bufferUploads]

lemma bufferUploads_mainGo (env : Env) (h : env.contextOk = true) :
    bufferUploads (mainGo env).trace =
      (List.range 50).map (fun i =>
        (ARRAY_BUFFER,
         rectangleVertices (sampleX env i) (sampleY env i) (sampleW env i) (sampleH env i),
         STATIC_DRAW)) := by
  rw [mainGo_trace_ok env h, bufferUploads_append, bufferUploads_append,
      bufferUploads_append, bufferUploads_append, bufferUploads_createShader,
      bufferUploads_createShader, bufferUploads_createProgram,
      bufferUploads_setupTrace, bufferUploads_loop]
  simp

lemma colorWrites_createShader (env : Env) (t : Nat) (src : String) (id : Nat) :
    colorWrites (createShader env t src id).2.1 = [] := by
  simp only [createShader]
  split <;> rfl

lemma colorWrites_createProgram (env : Env) (v f : Handle) (id : Nat) :
    colorWrites (createProgram env v f id).2.1 = [] := by
  simp only [createProgram]
  split <;> rfl

lemma colorWrites_setupTrace (env : Env) (p : Handle) :
    colorWrites (setupTrace env p) = [] := rfl

lemma colorWrites_loop (env : Env) (loc : Int) (n : Nat) :
    colorWrites ((List.range n).flatMap (loopIter env loc)) =
      (List.range n).map (fun i =>
        (loc, sampleR env i, sampleG env i, sampleB env i, (1 : ℚ))) := by
  induction n with
  | zero => rfl
  | succ n ih =>
      rw [List.range_succ, List.flatMap_append, colorWrites_append, ih, List.map_append]
      simp [loopIter, setRectangle, colorWrites]

lemma countP_u2f_createShader (env : Env) (t : Nat) (src : String) (id : Nat) :
    ((createShader env t src id).2.1).countP isUniform2f = 0 := by
  simp only [createShader]
  split <;> rfl

lemma countP_u2f_createProgram (env : Env) (v f : Handle) (id : Nat) :
    ((createProgram env v f id).2.1).countP isUniform2f = 0 := by
  simp only [createProgram]
  split <;> rfl

lemma countP_u2f_loop (env : Env) (loc : Int) (n : Nat) :
    (((List.range n).flatMap (loopIter env loc)).countP isUniform2f) = 0 := by
  induction n with
  | zero => rfl
  | succ n ih =>
      rw [List.range_succ, List.flatMap_append, List.countP_append, ih]
      simp [loopIter, setRectangle, isUniform2f, List.countP_cons]

lemma loop_cmd_kinds (env : Env) (loc : Int) (n : Nat) :
    ∀ c ∈ (List.range n).flatMap (loopIter env loc),
      isBufferData c = true ∨ isUniform4f c = true ∨ isDrawArrays c = true := by
  intro c hc
  rw [List.mem_flatMap] at hc
  obtain ⟨i, _, hci⟩ := hc
  simp only [loopIter, setRectangle, List.cons_append, List.nil_append,
    List.mem_cons, List.not_mem_nil, or_false] at hci
  rcases hci with h | h | h <;> subst h <;> simp [isBufferData, isUniform4f, isDrawArrays]

lemma countP_u2f_setupTrace (env : Env) (p : Handle) :
    (setupTrace env p).countP isUniform2f = 1 := rfl

/-- C2: for every resolution (W, H) with W, H nonzero and every pixel point
(px, py), the vertex shader's clip-space output is exactly
(2·px/W − 1, 1 − 2·py/H): divide by the resolution, double, shift by one,
flip the Y axis. -/
theorem vertexShader_clip_transform (W H px py : ℚ) (hW : W ≠ 0) (hH : H ≠ 0) :
    (vertexShaderRun (W, H) (px, py)).1 = 2 * px / W - 1 ∧
    (vertexShaderRun (W, H) (px, py)).2.1 = 1 - 2 * py / H := by
  constructor <;> · simp only [vertexShaderRun]; ring

/-- Witness for C2 at the spec's end-to-end scenario: resolution 300×150,
pixel (0, 0) maps to clip coordinates (−1, 1). -/
theorem vertexShader_clip_transform_witness :
    (300 : ℚ) ≠ 0 ∧ (150 : ℚ) ≠ 0 ∧
    (vertexShaderRun (300, 150) (0, 0)).1 = 2 * 0 / 300 - 1 ∧
    (vertexShaderRun (300, 150) (0, 0)).2.1 = 1 - 2 * 0 / 150 ∧
    (vertexShaderRun (300, 150) (0, 0)).1 = -1 ∧
    (vertexShaderRun (300, 150) (0, 0)).2.1 = 1 :=
  ⟨by norm_num, by norm_num,
   (vertexShader_clip_transform 300 150 0 0 (by norm_num) (by norm_num)).1,
   (vertexShader_clip_transform 300 150 0 0 (by norm_num) (by norm_num)).2,
   by norm_num [vertexShaderRun], by norm_num [vertexShaderRun]⟩

/-- C3: in every execution where context creation succeeded, exactly 50 draw
calls are issued, and each one is `DrawArrays(TRIANGLES, 0, 6)`: a triangle
list of exactly 6 vertices starting at vertex 0. -/
theorem draw_calls_exactly_50 (env : Env) (h : env.contextOk = true) :
    (mainGo env).trace.filter isDrawArrays =
      List.replicate 50 (Cmd.drawArrays TRIANGLES 0 6) ∧
    ((mainGo env).trace.filter isDrawArrays).length = 50 ∧
    ∀ c ∈ (mainGo env).trace, isDrawArrays c = true →
      c = Cmd.drawArrays TRIANGLES 0 6 := by
  have hf := filter_draw_mainGo env h
  refine ⟨hf, by rw [hf]; simp, ?_⟩
  intro c hc hdc
  have hm : c ∈ (mainGo env).trace.filter isDrawArrays := List.mem_filter.2 ⟨hc, hdc⟩
  rw [hf] at hm
  exact List.eq_of_mem_replicate hm

/-- Witness for C3: concrete successful environment. -/
theorem draw_calls_exactly_50_witness :
    (mainGo zeroEnv).trace.filter isDrawArrays =
      List.replicate 50 (Cmd.drawArrays TRIANGLES 0 6) :=
  (draw_calls_exactly_50 zeroEnv rfl).1

/-- C4: every sampled rectangle parameter of every iteration is below 300
(the bound 300 itself is never produced), and the all-zero random state shows
the value 0 is produced for all four parameters. -/
theorem rectangle_samples_in_range :
    (∀ (env : Env) (i : Nat),
       sampleX env i < 300 ∧ sampleY env i < 300 ∧
       sampleW env i < 300 ∧ sampleH env i < 300) ∧
    sampleX zeroEnv 0 = 0 ∧ sampleY zeroEnv 0 = 0 ∧
    sampleW zeroEnv 0 = 0 ∧ sampleH zeroEnv 0 = 0 := by
  refine ⟨fun env i => ⟨?_, ?_, ?_, ?_⟩, rfl, rfl, rfl, rfl⟩ <;>
    exact env.rnd.intn_lt _ 300 (by norm_num)

/-- C5: in every successful execution, the buffer uploads are exactly one
`BufferData(ARRAY_BUFFER, vertices, STATIC_DRAW)` per iteration, whose data is
the full six-vertex list of that iteration's sampled rectangle; the data is
always 12 floats, i.e. 48 bytes at 4 bytes per float32. -/
theorem buffer_upload_per_iteration (env : Env) (h : env.contextOk = true) :
    bufferUploads (mainGo env).trace =
      (List.range 50).map (fun i =>
        (ARRAY_BUFFER,
         rectangleVertices (sampleX env i) (sampleY env i) (sampleW env i) (sampleH env i),
         STATIC_DRAW)) ∧
    (∀ x y w h : ℚ, (rectangleVertices x y w h).length = 12 ∧
       4 * (rectangleVertices x y w h).length = 48) := by
  constructor
  · exact bufferUploads_mainGo env h
  · intro x y w h
    exact ⟨rfl, rfl⟩

/-- Witness for C5: concrete successful environment. -/
theorem buffer_upload_per_iteration_witness :
    bufferUploads (mainGo zeroEnv).trace =
      (List.range 50).map (fun i =>
        (ARRAY_BUFFER,
         rectangleVertices (sampleX zeroEnv i) (sampleY zeroEnv i)
           (sampleW zeroEnv i) (sampleH zeroEnv i),
         STATIC_DRAW)) :=
  (buffer_upload_per_iteration zeroEnv rfl).1

/-- C6: on successful compilation `createShader` returns the valid shader
handle (and logs nothing); on failure it logs the compiler's diagnostic,
deletes the shader object, and returns the distinguishable invalid handle;
the invalid handle never equals a valid one; and the caller (`main`) proceeds
without checking: even with every compilation failing, all 50 draw calls are
still issued. -/
theorem createShader_contract :
    (∀ (env : Env) (t : Nat) (src : String) (id : Nat),
       env.compileOk id = true →
         createShader env t src id =
           (Handle.valid id,
            [Cmd.createShaderCall t id, Cmd.shaderSourceCall id src,
             Cmd.compileShaderCall id, Cmd.getShaderParameterCall id COMPILE_STATUS],
            [])) ∧
    (∀ (env : Env) (t : Nat) (src : String) (id : Nat),
       env.compileOk id = false →
         (createShader env t src id).1 = Handle.invalid ∧
         (createShader env t src id).2.2 = [env.shaderInfoLog id] ∧
         Cmd.deleteShaderCall id ∈ (createShader env t src id).2.1) ∧
    (∀ id : Nat, Handle.invalid ≠ Handle.valid id) ∧
    (∀ env : Env, env.contextOk = true →
       ((mainGo env).trace.filter isDrawArrays).length = 50) := by
  refine ⟨?_, ?_, ?_, ?_⟩
  · intro env t src id h
    simp [createShader, h]
  · intro env t src id h
    refine ⟨?_, ?_, ?_⟩ <;> simp [createShader, h]
  · intro id hcontra
    exact Handle.noConfusion hcontra
  · intro env h
    rw [filter_draw_mainGo env h]
    simp

/-- Witness for C6: a compiling environment yields the valid handle; an
environment whose compiler rejects everything yields the invalid handle, and
its `main` still issues 50 draw calls. -/
theorem createShader_contract_witness :
    (createShader zeroEnv VERTEX_SHADER vertCode 0).1 = Handle.valid 0 ∧
    (createShader failCompileEnv VERTEX_SHADER vertCode 0).1 = Handle.invalid ∧
    (createShader failCompileEnv VERTEX_SHADER vertCode 0).2.2 = ["syntax error"] ∧
    ((mainGo failCompileEnv).trace.filter isDrawArrays).length = 50 :=
  ⟨by rw [createShader_contract.1 zeroEnv VERTEX_SHADER vertCode 0 rfl],
   (createShader_contract.2.1 failCompileEnv VERTEX_SHADER vertCode 0 rfl).1,
   (createShader_contract.2.1 failCompileEnv VERTEX_SHADER vertCode 0 rfl).2.1,
   createShader_contract.2.2.2 failCompileEnv rfl⟩

/-- C7: when context creation fails, `main` posts the alert "Error: " plus
the error text and returns at once: the GL trace and the log are empty, so no
shader, buffer, or draw operation is issued. -/
theorem context_failure_halts (env : Env) (h : env.contextOk = false) :
    mainGo env =
      { alerted := some ("Error: " ++ env.contextErr), trace := [], logs := [] } := by
  simp [mainGo, h]

/-- Witness for C7: concrete environment without a context. -/
theorem context_failure_halts_witness :
    mainGo noContextEnv =
      { alerted := some ("Error: " ++ noContextEnv.contextErr), trace := [], logs := [] } :=
  context_failure_halts noContextEnv rfl

/-- C8: in every successful execution, the color-uniform writes are exactly
one per iteration, each with alpha exactly 1 and red, green, blue given by
that iteration's `rand.Float32` samples, which all lie in [0, 1). -/
theorem color_uniform_alpha_one (env : Env) (h : env.contextOk = true) :
    colorWrites (mainGo env).trace =
      (List.range 50).map (fun i =>
        (env.uniformLoc "u_color", sampleR env i, sampleG env i, sampleB env i, (1 : ℚ))) ∧
    ∀ i : Nat,
      0 ≤ sampleR env i ∧ sampleR env i < 1 ∧
      0 ≤ sampleG env i ∧ sampleG env i < 1 ∧
      0 ≤ sampleB env i ∧ sampleB env i < 1 := by
  constructor
  · rw [mainGo_trace_ok env h, colorWrites_append, colorWrites_append, colorWrites_append,
        colorWrites_append, colorWrites_createShader, colorWrites_createShader,
        colorWrites_createProgram, colorWrites_setupTrace, colorWrites_loop]
    simp
  · intro i
    exact ⟨env.rnd.float32_nonneg _, env.rnd.float32_lt_one _,
           env.rnd.float32_nonneg _, env.rnd.float32_lt_one _,
           env.rnd.float32_nonneg _, env.rnd.float32_lt_one _⟩

/-- Witness for C8: concrete successful environment. -/
theorem color_uniform_alpha_one_witness :
    colorWrites (mainGo zeroEnv).trace =
      (List.range 50).map (fun i =>
        (zeroEnv.uniformLoc "u_color", sampleR zeroEnv i, sampleG zeroEnv i,
         sampleB zeroEnv i, (1 : ℚ))) :=
  (color_uniform_alpha_one zeroEnv rfl).1

/-- C9: in every successful execution the resolution uniform (the only
`Uniform2f` call) is written exactly once, in the setup part of the trace
before any draw call, and every command of the 50-iteration part is a buffer
upload, a color-uniform write, or a draw call — so the resolution is never
written again during the loop. -/
theorem resolution_uniform_set_once (env : Env) (h : env.contextOk = true) :
    (mainGo env).trace.countP isUniform2f = 1 ∧
    ∃ pre post, (mainGo env).trace = pre ++ post ∧
      pre.countP isUniform2f = 1 ∧ pre.countP isDrawArrays = 0 ∧
      ∀ c ∈ post, isBufferData c = true ∨ isUniform4f c = true ∨ isDrawArrays c = true := by
  constructor
  · rw [mainGo_trace_ok env h, List.countP_append, List.countP_append, List.countP_append,
        List.countP_append, countP_u2f_createShader, countP_u2f_createShader,
        countP_u2f_createProgram, countP_u2f_setupTrace, countP_u2f_loop]
  · refine ⟨(createShader env VERTEX_SHADER vertCode 0).2.1 ++
        (createShader env FRAGMENT_SHADER fragCode 1).2.1 ++
        (createProgram env (createShader env VERTEX_SHADER vertCode 0).1
          (createShader env FRAGMENT_SHADER fragCode 1).1 2).2.1 ++
        setupTrace env (createProgram env (createShader env VERTEX_SHADER vertCode 0).1
          (createShader env FRAGMENT_SHADER fragCode 1).1 2).1,
        (List.range 50).flatMap (loopIter env (env.uniformLoc "u_color")),
        ?_, ?_, ?_, ?_⟩
    · rw [mainGo_trace_ok env h]
    · rw [List.countP_append, List.countP_append, List.countP_append,
          countP_u2f_createShader, countP_u2f_createShader,
          countP_u2f_createProgram, countP_u2f_setupTrace]
    · have h1 := filter_draw_createShader env VERTEX_SHADER vertCode 0
      have h2 := filter_draw_createShader env FRAGMENT_SHADER fragCode 1
      have h3 := filter_draw_createProgram env (createShader env VERTEX_SHADER vertCode 0).1
        (createShader env FRAGMENT_SHADER fragCode 1).1 2
      have h4 := filter_draw_setupTrace env (createProgram env
        (createShader env VERTEX_SHADER vertCode 0).1
        (createShader env FRAGMENT_SHADER fragCode 1).1 2).1
      rw [List.countP_eq_length_filter, List.filter_append, List.filter_append,
          List.filter_append, h1, h2, h3, h4]
      rfl
    · exact loop_cmd_kinds env (env.uniformLoc "u_color") 50

/-- Witness for C9: concrete successful environment. -/
theorem resolution_uniform_set_once_witness :
    (mainGo zeroEnv).trace.countP isUniform2f = 1 :=
  (resolution_uniform_set_once zeroEnv rfl).1

/-- C10: degenerate rectangles are reachable: under the all-zero random
state, width and height sample to 0, the first buffer upload is the full-zero
rectangle, and `setRectangle` still produces a well-defined six-vertex list
whose vertices all coincide (zero-area triangles). -/
theorem degenerate_rectangle_reachable :
    sampleW zeroEnv 0 = 0 ∧ sampleH zeroEnv 0 = 0 ∧
    (bufferUploads (mainGo zeroEnv).trace).head? =
      some (ARRAY_BUFFER, rectangleVertices 0 0 0 0, STATIC_DRAW) ∧
    toVec2s (rectangleVertices 0 0 0 0) =
      [(0, 0), (0, 0), (0, 0), (0, 0), (0, 0), (0, 0)] ∧
    (toVec2s (rectangleVertices 0 0 0 0)).length = 6 := by
  refine ⟨rfl, rfl, ?_, by norm_num [rectangleVertices, toVec2s], rfl⟩
  rw [bufferUploads_mainGo zeroEnv rfl, List.range_succ_eq_map, List.map_cons,
      List.head?_cons]
  norm_num [sampleX, sampleY, sampleW, sampleH, zeroEnv, zeroRand]
